import Mathlib

/-!
Verification of the blueprint source-resolution and command logic of a
CLI for an orchestration manager (`cloudify_cli/commands/blueprints.py`
and `cloudify_cli/commands/node_instances.py`), against its
natural-language specification.

The Python code is shallowly embedded: `os.path` string helpers are
re-implemented faithfully over `List Char` (Python `str` semantics for
`'/'`-separated POSIX paths), pure command logic becomes pure Lean
functions, exception-based control flow becomes explicit result types,
and external collaborators (REST client, DSL parser, filesystem,
archive extraction) are abstracted as explicit environment records.
-/

namespace CloudifyCli

/-! ## Python `os.path` helpers (POSIX flavour), embedded over `List Char` -/

/-- Python `str.split(sep)` for a single-character separator. On the empty
string it returns `[[]]`, exactly like `"".split('/') == ['']`. -/
def splitChar (c : Char) : List Char → List (List Char)
  | [] => [[]]
  | x :: xs =>
    let r := splitChar c xs
    if x = c then [] :: r
    else
      match r with
      | [] => [[x]]
      | y :: ys => (x :: y) :: ys

/-- The suffix of `l` strictly after the last occurrence of `c`
(all of `l` if `c` does not occur). This is Python
`p[p.rfind(c)+1:]`, i.e. `os.path.basename` when `c = '/'`. -/
def afterLastChar (c : Char) : List Char → List Char
  | [] => []
  | x :: xs =>
    if xs.contains c then afterLastChar c xs
    else if x = c then xs else x :: xs

/-- Index of the last occurrence of `c` in `l`, Python `str.rfind`
(`none` standing for Python's `-1`). -/
def rfindIdx (c : Char) : List Char → Option Nat
  | [] => none
  | x :: xs =>
    match rfindIdx c xs with
    | some i => some (i + 1)
    | none => if x = c then some 0 else none

/-- Python `p[:p.rfind('/')+1]`: the prefix of `l` up to and including the
last `'/'` (empty if there is no `'/'`). First half of `os.path.dirname`. -/
def headToLastSep : List Char → List Char
  | [] => []
  | x :: xs =>
    if xs.contains '/' then x :: headToLastSep xs
    else if x = '/' then [x] else []

/-- Python `os.path.basename` (posixpath): everything after the last `'/'`. -/
def os_path_basename (s : String) : String :=
  ⟨afterLastChar '/' s.data⟩

/-- Python `os.path.dirname` (posixpath): the prefix up to the last `'/'`,
with trailing slashes stripped unless the prefix consists only of slashes. -/
def os_path_dirname (s : String) : String :=
  let head := headToLastSep s.data
  if head ≠ [] ∧ ¬ head.all (· = '/') then
    ⟨(head.reverse.dropWhile (· = '/')).reverse⟩
  else ⟨head⟩

/-- Python `os.path.splitext` (genericpath `_splitext` with `sep='/'`,
`extsep='.'`): split at the last dot, provided it lies after the last
slash and some non-dot character of the final path component precedes it
(so `.bashrc` has no extension). The scanning `while` loop of the source
is rendered by its postcondition: an extension is split off iff such a
non-dot character exists. -/
def os_path_splitext (s : String) : String × String :=
  let l := s.data
  let sepIndex : Int := match rfindIdx '/' l with | some i => (i : Int) | none => -1
  let dotIndex : Int := match rfindIdx '.' l with | some i => (i : Int) | none => -1
  if sepIndex < dotIndex then
    if (List.range l.length).any (fun k =>
        decide (sepIndex < (k : Int)) && decide ((k : Int) < dotIndex) &&
        !(l.getD k ' ' == '.')) then
      (⟨l.take dotIndex.toNat⟩, ⟨l.drop dotIndex.toNat⟩)
    else (s, "")
  else (s, "")

/-- Python `str.replace('-', '_')`: for single-character pattern and
replacement this is a character-wise map. -/
def replaceDashUnderscore (s : String) : String :=
  ⟨s.data.map (fun c => if c = '-' then '_' else c)⟩

/-! ## `blueprints.py`: `get_archive_id` (lines 228–231)

    def get_archive_id(archive_location):
        filename, _ = os.path.splitext(os.path.basename(archive_location))
        dirname = os.path.dirname(archive_location).split('/')[-1]
        return dirname.replace('-', '_') + '_' + filename
-/

def get_archive_id (archive_location : String) : String :=
  let filename := (os_path_splitext (os_path_basename archive_location)).1
  let dirname : String := ⟨(splitChar '/' (os_path_dirname archive_location).data).getLastD []⟩
  replaceDashUnderscore dirname ++ "_" ++ filename

/-- The ArchiveIdentity algorithm as the specification words it: "the
parent directory's base name (hyphens replaced with underscores)
concatenated with an underscore and the archive's file stem (extension
stripped)" — base name and stem taken in their usual `os.path` senses
(`basename`, `splitext`). -/
def specArchiveIdentity (p : String) : String :=
  replaceDashUnderscore (os_path_basename (os_path_dirname p)) ++ "_"
    ++ (os_path_splitext (os_path_basename p)).1

/-! ## `blueprints.py`: module constants (lines 33–34) -/

def SUPPORTED_ARCHIVE_TYPES : List String := ["zip", "tar", "tar.gz", "tar.bz2"]

def DESCRIPTION_LIMIT : Nat := 20

/-! ## `blueprints.py`: `list`'s `trim_description` (lines 153–160)

    def trim_description(blueprint):
        if blueprint['description'] is not None:
            if len(blueprint['description']) >= DESCRIPTION_LIMIT:
                blueprint['description'] = '{0}..'.format(
                    blueprint['description'][:DESCRIPTION_LIMIT - 2])
        else:
            blueprint['description'] = ''
        return blueprint

The function only reads and rewrites the `description` field of the
blueprint record, so it is embedded as the transformation of that field
(`none` standing for Python `None`). -/

def trim_description (description : Option String) : String :=
  match description with
  | some d =>
    if DESCRIPTION_LIMIT ≤ d.length then ⟨d.data.take (DESCRIPTION_LIMIT - 2)⟩ ++ ".." else d
  | none => ""

/-! ## `blueprints.py`: `validate_blueprint` (lines 45–65)

    try:
        ...
        parse_from_path(dsl_file_path=blueprint_path, ...)
    except DSLParsingException as ex:
        raise CloudifyCliError('Failed to validate blueprint {0}'.format(ex))
    logger.info('Blueprint validated successfully')

The DSL parser is an external collaborator; its outcome on the given
blueprint path is passed in explicitly. -/

/-- Outcome of the external `parse_from_path` call: success, a
`DSLParsingException` carrying a message, or any other exception. -/
inductive ParseOutcome where
  | success
  | dslParsingException (msg : String)
  | otherException (msg : String)
  deriving DecidableEq

/-- Result of `validate_blueprint` as observed by its caller: normal
return, a raised `CloudifyCliError`, or an exception that the
`except DSLParsingException` clause does not catch. -/
inductive ValidateResult where
  | ok
  | cloudifyCliError (msg : String)
  | uncaught (msg : String)
  deriving DecidableEq

def validate_blueprint : ParseOutcome → ValidateResult
  | .success => .ok
  | .dslParsingException m => .cloudifyCliError ("Failed to validate blueprint " ++ m)
  | .otherException m => .uncaught m

/-! ## `blueprints.py`: `upload` (lines 68–111)

    blueprint_filename = blueprint_filename or 'blueprint.yaml'
    new_path = common.get_blueprint(blueprint_path, blueprint_filename)
    try:
        if validate:
            ctx.invoke(validate_blueprint, blueprint_path=new_path)
        blueprint_id = blueprint_id or utils.generate_suffixed_id(
            get_archive_id(new_path))
        blueprint = client.blueprints.upload(new_path, blueprint_id)
    finally:
        if new_path != blueprint_path:
            shutil.rmtree(os.path.dirname(new_path))

`common.get_blueprint`, the DSL parser, the REST client and
`utils.generate_suffixed_id` are external to the reviewed sources and
enter as an explicit environment. Python's `x or y` on an optional
string falls through to `y` both when `x` is `None` and when `x` is the
empty string (the empty string is falsy). -/

/-- Python `opt or default` for a `str`-or-`None` value. -/
def pyStrOr (opt : Option String) (default : String) : String :=
  match opt with
  | none => default
  | some s => if s = "" then default else s

structure UploadEnv where
  /-- `common.get_blueprint`: reference and definition filename to the
  resolved local path (abstract collaborator, not part of the sources). -/
  get_blueprint : String → String → String
  /-- Outcome of `parse_from_path` on a given path, consumed by
  `ctx.invoke(validate_blueprint, ...)`. -/
  parseOutcome : String → ParseOutcome
  /-- `client.blueprints.upload path id`: the uploaded blueprint's id on
  success, or an error message. -/
  clientUpload : String → String → Except String String
  /-- Modelled from the spec: `utils.generate_suffixed_id` is not part of
  the reviewed sources; the spec describes the generated id as "the
  derived identifier extended by a caller-side uniqueness suffix". -/
  suffix : String

/-- Modelled from the spec: `utils.generate_suffixed_id` extends a base
id with a caller-side uniqueness suffix. -/
def generate_suffixed_id (env : UploadEnv) (base : String) : String :=
  base ++ env.suffix

/-- A failure escaping `upload`'s `try` block: an exception raised by the
invoked `validate_blueprint`, or a failure of the REST upload call. -/
inductive UploadFailure where
  | validationError (v : ValidateResult)
  | clientError (msg : String)
  deriving DecidableEq

deriving instance DecidableEq for Except

structure UploadOutcome where
  /-- The id passed to `client.blueprints.upload`, when that call is reached. -/
  attemptedId : Option String
  /-- Normal return value (the uploaded blueprint's id) or the escaping failure. -/
  result : Except UploadFailure String
  /-- Directories removed by `shutil.rmtree` in the `finally` block. -/
  removedDirs : List String
  deriving DecidableEq

def upload (env : UploadEnv) (blueprint_path : String) (blueprint_id : Option String)
    (blueprint_filename : Option String) (validate : Bool) : UploadOutcome :=
  let bf := pyStrOr blueprint_filename "blueprint.yaml"
  let new_path := env.get_blueprint blueprint_path bf
  let vres := validate_blueprint (env.parseOutcome new_path)
  let validationFailed : Bool := validate && !(vres == .ok)
  let bid := pyStrOr blueprint_id (generate_suffixed_id env (get_archive_id new_path))
  { attemptedId := if validationFailed then none else some bid
    result :=
      if validationFailed then .error (.validationError vres)
      else
        match env.clientUpload new_path bid with
        | .ok returnedId => .ok returnedId
        | .error m => .error (.clientError m)
    removedDirs := if new_path ≠ blueprint_path then [os_path_dirname new_path] else [] }

/-! ## `node_instances.py`: `ls` (lines 66–93)

    try:
        ...
        instances = client.node_instances.list(deployment_id=deployment_id,
                                               node_name=node_name)
    except CloudifyClientError as e:
        if not e.status_code != 404:
            raise
        raise CloudifyCliError('Deployment {0} does not exist'.format(
            deployment_id))

The REST call's outcome is passed in explicitly; node-instance records
are abstracted to their ids. -/

/-- Outcome of `client.node_instances.list`: a list of instances, or a
`CloudifyClientError` carrying a status code and message. -/
inductive ListOutcome where
  | ok (instances : List String)
  | clientError (status_code : Nat) (msg : String)
  deriving DecidableEq

/-- How `ls` terminates on an erroneous REST call: the original
`CloudifyClientError` re-raised unchanged by the bare `raise`, or a new
`CloudifyCliError`. -/
inductive LsError where
  | reRaised (status_code : Nat) (msg : String)
  | cloudifyCliError (msg : String)
  deriving DecidableEq

def ls (deployment_id : String) (listResult : ListOutcome) : Except LsError (List String) :=
  match listResult with
  | .ok instances => .ok instances
  | .clientError status_code msg =>
    if !(status_code != 404) then .error (.reRaised status_code msg)
    else .error (.cloudifyCliError ("Deployment " ++ deployment_id ++ " does not exist"))

/-! ## The Blueprint Source Resolver, modelled from the spec

`common.get_blueprint` and its helpers are not part of the reviewed
sources; only their caller (`upload`) is. The resolver below is
modelled from the spec: §4.1's `resolve(reference, definitionFilename)`
with its four-way syntactic classification, temporary-directory
materialisation, and derived-id computation (the ArchiveIdentity
algorithm applied to the original location, which the sources implement
as `get_archive_id`). -/

/-- Does `l` end with `suffix`? -/
def listEndsWith (l suffix : List Char) : Bool :=
  suffix.reverse.isPrefixOf l.reverse

/-- Does path `p` end with `"." ++ ext`? -/
def endsWithExt (p : String) (ext : String) : Bool :=
  listEndsWith p.data ("." ++ ext).data

def hasSupportedArchiveExt (p : String) : Bool :=
  SUPPORTED_ARCHIVE_TYPES.any (endsWithExt p)

/-- Modelled from the spec: extensions that make a reference "look like"
an archive for §4.1's classification — the supported kinds together with
common archive extensions outside the allow-list (the spec names `.rar`
as an example of an unsupported one). -/
def ARCHIVE_LIKE_EXTS : List String :=
  ["zip", "tar", "tar.gz", "tar.bz2", "tgz", "tbz", "rar", "7z", "gz", "bz2", "xz"]

def hasArchiveLikeExt (p : String) : Bool :=
  ARCHIVE_LIKE_EXTS.any (endsWithExt p)

/-- Is the reference a URL? (syntactic scheme check) -/
def isUrl (s : String) : Bool :=
  "http://".data.isPrefixOf s.data || "https://".data.isPrefixOf s.data

/-- Modelled from the spec: an `organization/repository[:ref]` shorthand
is a non-URL reference with exactly one `/`. -/
def looksLikeRepoShorthand (s : String) : Bool :=
  (splitChar '/' s.data).length == 2 && !(isUrl s)

/-- Error kinds of the spec's §7 that the modelled resolver can surface
(transport and extraction failures of the external collaborators are out
of scope of the claims and are folded into the environment). -/
inductive ResolveError where
  | sourceNotFound
  | unsupportedArchive
  deriving DecidableEq

/-- The spec's ResolvedBlueprint record (§3). -/
structure ResolvedBlueprint where
  localPath : String
  isTemporary : Bool
  derivedId : String
  deriving DecidableEq

/-- The filesystem/network capabilities the resolver consumes (§6),
abstracted: local existence, the file names at an archive's extraction
root, and the freshly created temporary directory of this invocation. -/
structure ResolveEnv where
  existsLocal : String → Bool
  archiveRootFiles : String → List String
  freshTempDir : String

/-- Modelled from the spec: materialise an archive into the invocation's
fresh temporary directory and locate `definitionFilename` at the
extraction root (§4.1 step 3), deriving the id from the archive's
original location (§4.1 step 4). -/
def materializeArchive (env : ResolveEnv) (reference definitionFilename : String) :
    Except ResolveError ResolvedBlueprint :=
  if (env.archiveRootFiles reference).contains definitionFilename then
    .ok { localPath := env.freshTempDir ++ "/" ++ definitionFilename
          isTemporary := true
          derivedId := get_archive_id reference }
  else .error .sourceNotFound

/-- Modelled from the spec: §4.1's `resolve(reference, definitionFilename)`.
Classification is purely syntactic (step 1); a supported-archive
extension means an archive, an archive-like but unsupported extension is
an error rather than a fallback, an existing local non-archive path is a
direct definition file (step 2), and URLs and repository shorthands are
materialised like local archives (step 3). -/
def resolve (env : ResolveEnv) (reference definitionFilename : String) :
    Except ResolveError ResolvedBlueprint :=
  if hasSupportedArchiveExt reference then
    if !(isUrl reference) && !(env.existsLocal reference) then .error .sourceNotFound
    else materializeArchive env reference definitionFilename
  else if hasArchiveLikeExt reference then
    .error .unsupportedArchive
  else if env.existsLocal reference && !(isUrl reference) then
    .ok { localPath := reference, isTemporary := false, derivedId := get_archive_id reference }
  else if isUrl reference || looksLikeRepoShorthand reference then
    materializeArchive env reference definitionFilename
  else .error .sourceNotFound

/-! ## Lemmas: Python `split('/')[-1]` agrees with `os.path.basename` -/


theorem splitChar_ne_nil (c : Char) (l : List Char) : splitChar c l ≠ [] := by
  cases l with
  | nil => simp [splitChar]
  | cons x xs =>
    simp only [splitChar]
    split
    · simp
    · split <;> simp_all

theorem afterLastChar_of_not_contains (c : Char) (xs : List Char)
    (h : xs.contains c = false) : afterLastChar c xs = xs := by
  induction xs with
  | nil => rfl
  | cons x xs ih =>
    simp only [List.contains_cons, Bool.or_eq_false_iff, beq_eq_false_iff_ne] at h
    have hnm : c ∉ xs := by simpa using h.2
    simp [afterLastChar, h.2, ih h.2, Ne.symm h.1, hnm]

theorem splitChar_of_not_contains (c : Char) (xs : List Char)
    (h : xs.contains c = false) : splitChar c xs = [xs] := by
  induction xs with
  | nil => rfl
  | cons x xs ih =>
    simp only [List.contains_cons, Bool.or_eq_false_iff, beq_eq_false_iff_ne] at h
    simp [splitChar, Ne.symm h.1, ih h.2]

theorem splitChar_length_of_contains (c : Char) (xs : List Char)
    (h : xs.contains c = true) : 2 ≤ (splitChar c xs).length := by
  induction xs with
  | nil => simp [List.contains] at h
  | cons x xs ih =>
    by_cases hx : x = c
    · cases hne : splitChar c xs with
      | nil => exact absurd hne (splitChar_ne_nil c xs)
      | cons y ys =>
        rw [show splitChar c (x :: xs) = [] :: splitChar c xs by simp [splitChar, hx], hne]
        simp
    · have hc : xs.contains c = true := by
        simp only [List.contains_cons, Bool.or_eq_true] at h
        rcases h with h | h
        · exact absurd (eq_of_beq h).symm hx
        · exact h
      cases hne : splitChar c xs with
      | nil => exact absurd hne (splitChar_ne_nil c xs)
      | cons y ys =>
        have h2 := ih hc
        rw [hne] at h2
        rw [show splitChar c (x :: xs) = (x :: y) :: ys by simp [splitChar, hx, hne]]
        simpa using h2

theorem getLastD_congr {α : Type} (ys : List α) (d₁ d₂ : α) (h : ys ≠ []) :
    ys.getLastD d₁ = ys.getLastD d₂ := by
  cases ys with
  | nil => exact absurd rfl h
  | cons y ys => rw [List.getLastD_cons, List.getLastD_cons]

theorem splitChar_getLastD_eq_afterLastChar (c : Char) (l : List Char) :
    (splitChar c l).getLastD [] = afterLastChar c l := by
  induction l with
  | nil => rfl
  | cons x xs ih =>
    by_cases hx : x = c <;> by_cases hc : xs.contains c = true
    · have hm : c ∈ xs := by simpa using hc
      rw [show splitChar c (x :: xs) = [] :: splitChar c xs by simp [splitChar, hx],
        List.getLastD_cons, ih]
      simp [afterLastChar, hm]
    · have hcf : xs.contains c = false := by simpa using hc
      have hnm : c ∉ xs := by simpa using hcf
      rw [show splitChar c (x :: xs) = [] :: splitChar c xs by simp [splitChar, hx],
        List.getLastD_cons, splitChar_of_not_contains c xs hcf]
      simp [afterLastChar, hnm, hx]
    · obtain ⟨y, ys, hne⟩ : ∃ y ys, splitChar c xs = y :: ys := by
        cases h : splitChar c xs with
        | nil => exact absurd h (splitChar_ne_nil c xs)
        | cons y ys => exact ⟨y, ys, rfl⟩
      have hlen := splitChar_length_of_contains c xs hc
      rw [hne] at hlen
      have hys : ys ≠ [] := by
        cases ys with
        | nil => simp at hlen
        | cons _ _ => simp
      rw [show splitChar c (x :: xs) = (x :: y) :: ys by simp [splitChar, hx, hne]]
      calc ((x :: y) :: ys).getLastD [] = ys.getLastD (x :: y) := List.getLastD_cons ..
        _ = ys.getLastD y := getLastD_congr ys _ _ hys
        _ = (y :: ys).getLastD [] := (List.getLastD_cons ..).symm
        _ = (splitChar c xs).getLastD [] := by rw [hne]
        _ = afterLastChar c xs := ih
        _ = afterLastChar c (x :: xs) := by
              have hm : c ∈ xs := by simpa using hc
              simp [afterLastChar, hm]
    · have hcf : xs.contains c = false := by simpa using hc
      have hnm : c ∉ xs := by simpa using hcf
      rw [show splitChar c (x :: xs) = [x :: xs] by
        simp [splitChar, hx, splitChar_of_not_contains c xs hcf]]
      simp [afterLastChar, hnm, hx]

theorem get_archive_id_eq_specArchiveIdentity (p : String) :
    get_archive_id p = specArchiveIdentity p := by
  unfold get_archive_id specArchiveIdentity os_path_basename
  rw [splitChar_getLastD_eq_afterLastChar]




/-! ## Claim theorems -/

/-- C1: For every archive path, the derived identifier computed by
`get_archive_id` equals the base name of the parent directory with every
hyphen replaced by an underscore, followed by an underscore, followed by
the archive's file name with its extension stripped; in particular it
maps `"/a/my-repo/bp.zip"` to `"my_repo_bp"`. -/
theorem get_archive_id_matches_spec :
    (∀ p : String, get_archive_id p = specArchiveIdentity p) ∧
    get_archive_id "/a/my-repo/bp.zip" = "my_repo_bp" :=
  ⟨get_archive_id_eq_specArchiveIdentity, by decide⟩

/-- C4: The derived identifier is a deterministic function of the path
string alone — `get_archive_id` is embedded as a pure function of the
path (the source reads no file contents), so equal path strings yield
equal identifiers. -/
theorem get_archive_id_deterministic :
    ∀ p₁ p₂ : String, p₁ = p₂ → get_archive_id p₁ = get_archive_id p₂ :=
  fun _ _ h => congrArg get_archive_id h

/-- Witness for C4 at the concrete path of the spec's example. -/
theorem get_archive_id_deterministic_witness :
    get_archive_id "/a/my-repo/bp.zip" = get_archive_id "/a/my-repo/bp.zip" :=
  get_archive_id_deterministic "/a/my-repo/bp.zip" "/a/my-repo/bp.zip" rfl

/-- C9: The displayed description is never `None`: a missing description
becomes `""`, one of fewer than 20 characters is unchanged, one of 20 or
more characters becomes its first 18 characters followed by `".."`, and
every displayed description has length at most 20. -/
theorem trim_description_spec :
    trim_description none = "" ∧
    (∀ d : String, d.length < DESCRIPTION_LIMIT → trim_description (some d) = d) ∧
    (∀ d : String, DESCRIPTION_LIMIT ≤ d.length →
      trim_description (some d) = ⟨d.data.take 18⟩ ++ "..") ∧
    (∀ d : Option String, (trim_description d).length ≤ DESCRIPTION_LIMIT) := by
  refine ⟨rfl, ?_, ?_, ?_⟩
  · intro d h
    have h2 : ¬ DESCRIPTION_LIMIT ≤ d.length := by omega
    show (if DESCRIPTION_LIMIT ≤ d.length then
      ((⟨d.data.take (DESCRIPTION_LIMIT - 2)⟩ : String) ++ "..") else d) = d
    rw [if_neg h2]
  · intro d h
    show (if DESCRIPTION_LIMIT ≤ d.length then
      ((⟨d.data.take (DESCRIPTION_LIMIT - 2)⟩ : String) ++ "..") else d) = ⟨d.data.take 18⟩ ++ ".."
    rw [if_pos h]
    norm_num [DESCRIPTION_LIMIT]
  · intro d
    cases d with
    | none => simp [trim_description, DESCRIPTION_LIMIT]
    | some d =>
      by_cases h : DESCRIPTION_LIMIT ≤ d.length
      · have he : trim_description (some d) = ⟨d.data.take 18⟩ ++ ".." := by
          show (if DESCRIPTION_LIMIT ≤ d.length then
            ((⟨d.data.take (DESCRIPTION_LIMIT - 2)⟩ : String) ++ "..") else d) = _
          rw [if_pos h]
          norm_num [DESCRIPTION_LIMIT]
        rw [he]
        have h1 : (d.data.take 18).length ≤ 18 := List.length_take_le 18 d.data
        have h2 : ((⟨d.data.take 18⟩ : String) ++ "..").length = (d.data.take 18).length + 2 := by
          rw [String.length_append]
          rfl
        rw [h2]
        show (d.data.take 18).length + 2 ≤ 20
        omega
      · have he : trim_description (some d) = d := by
          show (if DESCRIPTION_LIMIT ≤ d.length then
            ((⟨d.data.take (DESCRIPTION_LIMIT - 2)⟩ : String) ++ "..") else d) = _
          rw [if_neg h]
        rw [he]
        simp only [DESCRIPTION_LIMIT] at h ⊢
        omega

/-- Witness for C9 at concrete descriptions: a missing one, a short one,
and a 25-character one. -/
theorem trim_description_spec_witness :
    trim_description (some "short") = "short" ∧
    trim_description (some "abcdefghijklmnopqrstuvwxy") = ⟨"abcdefghijklmnopqrstuvwxy".data.take 18⟩ ++ ".." := by
  constructor
  · exact trim_description_spec.2.1 "short" (by decide)
  · exact trim_description_spec.2.2.1 "abcdefghijklmnopqrstuvwxy" (by decide)

/-- C10: In `node-instances ls`, a `CloudifyClientError` with status code
404 is re-raised unchanged (the `if not e.status_code != 404: raise`
guard), while every client error with any other status code is replaced
by `CloudifyCliError('Deployment {0} does not exist')` formatted with the
deployment id; a successful listing passes through. -/
theorem ls_error_handling :
    (∀ (dep : String) (instances : List String), ls dep (.ok instances) = .ok instances) ∧
    (∀ (dep msg : String), ls dep (.clientError 404 msg) = .error (.reRaised 404 msg)) ∧
    (∀ (dep msg : String) (sc : Nat), sc ≠ 404 →
      ls dep (.clientError sc msg) =
        .error (.cloudifyCliError ("Deployment " ++ dep ++ " does not exist"))) := by
  refine ⟨fun _ _ => rfl, fun _ _ => rfl, ?_⟩
  intro dep msg sc h
  simp [ls, h]

/-- Witness for C10 at a non-404 client error (status 500). -/
theorem ls_error_handling_witness :
    ls "dep1" (.clientError 500 "boom") =
      .error (.cloudifyCliError ("Deployment " ++ "dep1" ++ " does not exist")) :=
  ls_error_handling.2.2 "dep1" "boom" 500 (by decide)

/-- C8: `validate_blueprint` raises the single CLI-facing error kind
(`CloudifyCliError`, wrapping the parser's message) exactly when the DSL
parser raises `DSLParsingException`; when the parser succeeds, validation
succeeds and nothing is re-wrapped. -/
theorem validate_blueprint_wraps_parser_errors :
    (∀ m, validate_blueprint (.dslParsingException m) =
      .cloudifyCliError ("Failed to validate blueprint " ++ m)) ∧
    validate_blueprint .success = .ok ∧
    (∀ (p : ParseOutcome) (m : String), validate_blueprint p = .cloudifyCliError m →
      ∃ e, p = .dslParsingException e ∧ m = "Failed to validate blueprint " ++ e) := by
  refine ⟨fun _ => rfl, rfl, ?_⟩
  intro p m h
  cases p with
  | success => simp [validate_blueprint] at h
  | dslParsingException e =>
    simp only [validate_blueprint, ValidateResult.cloudifyCliError.injEq] at h
    exact ⟨e, rfl, h.symm⟩
  | otherException e => simp [validate_blueprint] at h

/-- Witness for C8 at a concrete parser failure. -/
theorem validate_blueprint_wraps_parser_errors_witness :
    ∃ e, ParseOutcome.dslParsingException "boom" = ParseOutcome.dslParsingException e ∧
      ("Failed to validate blueprint " ++ "boom") = "Failed to validate blueprint " ++ e :=
  validate_blueprint_wraps_parser_errors.2.2 (.dslParsingException "boom")
    ("Failed to validate blueprint " ++ "boom") rfl


/-- C5: The supported archive kinds are exactly zip, tar, tar.gz and
tar.bz2 (`SUPPORTED_ARCHIVE_TYPES`, line 33), and the spec-modelled
resolver fails with `UnsupportedArchiveError` on every reference ending
in any other archive-like extension, never silently treating it as a
definition file. -/
theorem supported_archive_types_exact :
    SUPPORTED_ARCHIVE_TYPES = ["zip", "tar", "tar.gz", "tar.bz2"] ∧
    (∀ (env : ResolveEnv) (reference definitionFilename : String),
      hasArchiveLikeExt reference = true →
      hasSupportedArchiveExt reference = false →
      resolve env reference definitionFilename = .error .unsupportedArchive) := by
  refine ⟨rfl, ?_⟩
  intro env ref df h1 h2
  simp [resolve, h1, h2]

/-- Witness for C5: a `.rar` reference (existing locally, containing the
definition file) is rejected, not treated as a definition file. -/
theorem supported_archive_types_exact_witness :
    resolve ⟨fun _ => true, fun _ => ["blueprint.yaml"], "/tmp/tmp123"⟩
      "/a/b.rar" "blueprint.yaml" = .error .unsupportedArchive :=
  supported_archive_types_exact.2 ⟨fun _ => true, fun _ => ["blueprint.yaml"], "/tmp/tmp123"⟩
    "/a/b.rar" "blueprint.yaml" (by decide) (by decide)

/-- C2 counterexample: resolving `/tmp/demo-blueprints/hello.tar.gz`
(with `blueprint.yaml` at the archive root) does succeed with a
temporary path, but its derived identifier is
`"demo_blueprints_hello.tar"`, not `"demo_blueprints_hello"`:
`os.path.splitext` strips only the final `.gz` of the double extension. -/
theorem resolve_demo_id_not_fully_stripped :
    resolve ⟨fun p => p == "/tmp/demo-blueprints/hello.tar.gz", fun _ => ["blueprint.yaml"],
        "/tmp/tmpXYZ123"⟩
      "/tmp/demo-blueprints/hello.tar.gz" "blueprint.yaml" =
      .ok { localPath := "/tmp/tmpXYZ123/blueprint.yaml", isTemporary := true,
            derivedId := "demo_blueprints_hello.tar" } ∧
    get_archive_id "/tmp/demo-blueprints/hello.tar.gz" = "demo_blueprints_hello.tar" ∧
    "demo_blueprints_hello.tar" ≠ "demo_blueprints_hello" := by
  refine ⟨by decide, by decide, by decide⟩

/-- C2 (amended): for every fresh temporary directory, resolving the
demo archive yields the definition file inside that temporary directory,
marked temporary, with derived identifier `"demo_blueprints_hello.tar"`. -/
theorem resolve_demo_archive (tmp : String) :
    resolve ⟨fun p => p == "/tmp/demo-blueprints/hello.tar.gz", fun _ => ["blueprint.yaml"], tmp⟩
      "/tmp/demo-blueprints/hello.tar.gz" "blueprint.yaml" =
      .ok { localPath := tmp ++ "/" ++ "blueprint.yaml", isTemporary := true,
            derivedId := "demo_blueprints_hello.tar" } := rfl

/-- C3 counterexample: with blueprint reference
`/tmp/demo-blueprints/hello.tar.gz` resolved by `common.get_blueprint`
to the temporary extraction path `/tmp/tmpXYZ123/hello/blueprint.yaml`,
the id `upload` passes to the REST client is derived from the temporary
extraction path (giving `"hello_blueprint"`), not from the archive's
original location (which would give `"demo_blueprints_hello.tar"`). -/
theorem upload_id_from_temp_path :
    (upload ⟨fun _ _ => "/tmp/tmpXYZ123/hello/blueprint.yaml", fun _ => .success,
        fun _ bid => .ok bid, "_a1b2"⟩
      "/tmp/demo-blueprints/hello.tar.gz" none none false).attemptedId =
      some ("hello_blueprint" ++ "_a1b2") ∧
    get_archive_id "/tmp/tmpXYZ123/hello/blueprint.yaml" = "hello_blueprint" ∧
    get_archive_id "/tmp/demo-blueprints/hello.tar.gz" = "demo_blueprints_hello.tar" ∧
    ("hello_blueprint" ++ "_a1b2") ≠ ("demo_blueprints_hello.tar" ++ "_a1b2") := by
  refine ⟨by decide, by decide, by decide, by decide⟩

/-- C3 (amended): when no id is supplied, the derived identifier `upload`
passes to the REST client is computed by `get_archive_id` from the
resolved path returned by `common.get_blueprint` — in the archive cases
the temporary extraction path — not from the original location. -/
theorem upload_id_is_archive_id_of_resolved_path (env : UploadEnv) (blueprint_path : String)
    (blueprint_filename : Option String) :
    (upload env blueprint_path none blueprint_filename false).attemptedId =
      some (generate_suffixed_id env (get_archive_id
        (env.get_blueprint blueprint_path (pyStrOr blueprint_filename "blueprint.yaml")))) :=
  rfl

/-- C6: the `finally` block of `upload` removes the directory containing
the resolved file exactly when the resolved path differs from the
user-supplied reference, and this holds independently of the outcome of
validation and of the REST upload call (i.e. on success, validation
failure and upload failure alike). -/
theorem upload_cleanup_contract :
    (∀ (env : UploadEnv) (blueprint_path : String) (blueprint_id blueprint_filename : Option String)
        (validate : Bool),
      env.get_blueprint blueprint_path (pyStrOr blueprint_filename "blueprint.yaml")
          ≠ blueprint_path →
      (upload env blueprint_path blueprint_id blueprint_filename validate).removedDirs =
        [os_path_dirname (env.get_blueprint blueprint_path
          (pyStrOr blueprint_filename "blueprint.yaml"))]) ∧
    (∀ (env : UploadEnv) (blueprint_path : String) (blueprint_id blueprint_filename : Option String)
        (validate : Bool),
      env.get_blueprint blueprint_path (pyStrOr blueprint_filename "blueprint.yaml")
          = blueprint_path →
      (upload env blueprint_path blueprint_id blueprint_filename validate).removedDirs = []) ∧
    (∀ (env env' : UploadEnv) (blueprint_path : String)
        (blueprint_id blueprint_filename : Option String) (validate validate' : Bool),
      env.get_blueprint = env'.get_blueprint →
      (upload env blueprint_path blueprint_id blueprint_filename validate).removedDirs =
        (upload env' blueprint_path blueprint_id blueprint_filename validate').removedDirs) := by
  refine ⟨?_, ?_, ?_⟩
  · intro env bp bid bf v h
    simp [upload, h]
  · intro env bp bid bf v h
    simp [upload, h]
  · intro env env' bp bid bf v v' h
    simp [upload, h]

/-- Witness for C6: a temporary resolution is cleaned up, a direct local
file is not, and the cleanup is the same whether validation and the REST
upload succeed or fail. -/
theorem upload_cleanup_contract_witness :
    (upload ⟨fun _ _ => "/tmp/tmpA/blueprint.yaml", fun _ => .success, fun _ bid => .ok bid, "_s"⟩
      "/tmp/demo-blueprints/hello.tar.gz" none none false).removedDirs = ["/tmp/tmpA"] ∧
    (upload ⟨fun bp _ => bp, fun _ => .success, fun _ bid => .ok bid, "_s"⟩
      "/home/u/bp.yaml" none none false).removedDirs = [] ∧
    (upload ⟨fun _ _ => "/tmp/tmpA/blueprint.yaml", fun _ => .success, fun _ bid => .ok bid, "_s"⟩
      "/tmp/demo-blueprints/hello.tar.gz" none none false).removedDirs =
    (upload ⟨fun _ _ => "/tmp/tmpA/blueprint.yaml", fun _ => .dslParsingException "bad",
        fun _ _ => .error "http 500", "_s"⟩
      "/tmp/demo-blueprints/hello.tar.gz" none none true).removedDirs := by
  refine ⟨?_, ?_, ?_⟩
  · exact upload_cleanup_contract.1
      ⟨fun _ _ => "/tmp/tmpA/blueprint.yaml", fun _ => .success, fun _ bid => .ok bid, "_s"⟩
      "/tmp/demo-blueprints/hello.tar.gz" none none false (by decide)
  · exact upload_cleanup_contract.2.1
      ⟨fun bp _ => bp, fun _ => .success, fun _ bid => .ok bid, "_s"⟩
      "/home/u/bp.yaml" none none false (by decide)
  · exact upload_cleanup_contract.2.2
      ⟨fun _ _ => "/tmp/tmpA/blueprint.yaml", fun _ => .success, fun _ bid => .ok bid, "_s"⟩
      ⟨fun _ _ => "/tmp/tmpA/blueprint.yaml", fun _ => .dslParsingException "bad",
        fun _ _ => .error "http 500", "_s"⟩
      "/tmp/demo-blueprints/hello.tar.gz" none none false true rfl

/-- C7 counterexample: Python's `blueprint_id or generate_suffixed_id(...)`
treats an explicitly supplied empty-string id as absent: the id passed
to the REST client is the generated one, not the supplied `""`. -/
theorem upload_empty_id_not_used_unchanged :
    (upload ⟨fun _ _ => "/tmp/tmpXYZ123/hello/blueprint.yaml", fun _ => .success,
        fun _ bid => .ok bid, "_c7s"⟩
      "/tmp/demo-blueprints/hello.tar.gz" (some "") none false).attemptedId =
      some ("hello_blueprint" ++ "_c7s") ∧
    some ("hello_blueprint" ++ "_c7s") ≠ some "" := by
  refine ⟨by decide, by decide⟩

/-- C7 (amended): a non-empty user-supplied blueprint id is used
unchanged; when the user supplies none — or the empty string, which
Python's `or` treats as absent — the uploaded id is the derived
identifier extended by the caller-side uniqueness suffix. -/
theorem upload_id_precedence (env : UploadEnv) (blueprint_path : String)
    (blueprint_filename : Option String) (s : String) :
    (s ≠ "" →
      (upload env blueprint_path (some s) blueprint_filename false).attemptedId = some s) ∧
    (upload env blueprint_path none blueprint_filename false).attemptedId =
      some (generate_suffixed_id env (get_archive_id
        (env.get_blueprint blueprint_path (pyStrOr blueprint_filename "blueprint.yaml")))) ∧
    (upload env blueprint_path (some "") blueprint_filename false).attemptedId =
      some (generate_suffixed_id env (get_archive_id
        (env.get_blueprint blueprint_path (pyStrOr blueprint_filename "blueprint.yaml")))) := by
  refine ⟨?_, rfl, rfl⟩
  intro h
  simp [upload, pyStrOr, h]

/-- Witness for C7 at a concrete non-empty user-supplied id. -/
theorem upload_id_precedence_witness :
    (upload ⟨fun _ _ => "/tmp/tmpXYZ123/hello/blueprint.yaml", fun _ => .success,
        fun _ bid => .ok bid, "_c7s"⟩
      "/tmp/demo-blueprints/hello.tar.gz" (some "myid") none false).attemptedId = some "myid" :=
  (upload_id_precedence ⟨fun _ _ => "/tmp/tmpXYZ123/hello/blueprint.yaml", fun _ => .success,
      fun _ bid => .ok bid, "_c7s"⟩
    "/tmp/demo-blueprints/hello.tar.gz" none "myid").1 (by decide)

end CloudifyCli
